import Mathlib

/-!
Shallow embedding of the clothing-recommendation image server (`src/app.py`).

The service is a Flask app with three routes:
  * `POST /upload`  — store an uploaded image in the `images` table,
  * `GET /<string:image_id>` — stream a stored image back,
  * `GET /`         — liveness greeting.
A `before_request` hook applies an Origin + bearer-secret policy to POST
requests only.  Database access goes through a connection pool created in a
startup hook; each handler acquires a connection, works, and releases it in a
`finally` block.

The embedding below translates the handlers' logic directly.  External
effects are made explicit:
  * the database is a value of type `DB` threaded through the handlers;
  * connection-pool behaviour (acquisition failure, query failure) is an
    oracle parameter of type `DbFault`;
  * pool acquire/release calls are recorded in a `ConnEvent` trace so the
    release discipline of the `finally` blocks can be stated;
  * HTTP requests and responses are plain records.
-/

/-! ### Python decimal rendering of integers

`str(image_id)` in the source renders the integer key in decimal.  We embed
it directly (most-significant digit first), rather than through Lean's
`toString`, so that its properties can be proved from first principles. -/

/-- The decimal digit character for `d` (`0 ≤ d ≤ 9`). -/
def digitChar (d : Nat) : Char :=
  match d with
  | 0 => '0' | 1 => '1' | 2 => '2' | 3 => '3' | 4 => '4'
  | 5 => '5' | 6 => '6' | 7 => '7' | 8 => '8' | 9 => '9'
  | _ => '?'

/-- Decimal digits of `n`, most significant first; `[ '0' ]` for `0`. -/
def natDigits (n : Nat) : List Char :=
  if n < 10 then [digitChar n]
  else natDigits (n / 10) ++ [digitChar (n % 10)]
decreasing_by exact Nat.div_lt_self (by omega) (by omega)

/-- Embedding of Python `str(n)` for a natural number. -/
def pyNatStr (n : Nat) : String :=
  String.mk (natDigits n)

/-- Embedding of a Python f-string interpolation of a possibly-`None`
value: `None` renders as the four-character string `"None"`. -/
def pyStr : Option String → String
  | none => "None"
  | some s => s

/-! ### MIME type resolution (`get_mime_type`, app.py lines 123-135)

`os.path.splitext(filename)[1]` (POSIX rules): let `sepIndex` be the index
of the last `'/'` and `dotIndex` the index of the last `'.'` (`-1` when
absent).  If `dotIndex > sepIndex` and some character strictly between
`sepIndex` and `dotIndex` is not a dot (leading dots of the basename do not
start an extension), the extension is the suffix of the string from
`dotIndex`; otherwise it is empty. -/

/-- Python `str.rfind` restricted to a single character: the largest index
at which `c` occurs in `p`, or `-1` when it does not occur. -/
def rfind (p : List Char) (c : Char) : Int :=
  match p with
  | [] => -1
  | x :: xs =>
    if rfind xs c ≥ 0 then rfind xs c + 1
    else if x = c then 0 else -1

/-- The scan in `posixpath.splitext`: is there a non-dot character strictly
between the last `'/'` and the last `'.'`?  (Python walks indices from
`sepIndex + 1` up to `dotIndex`, returning as soon as a non-dot is seen.) -/
def windowNonDot (p : List Char) : Bool :=
  (List.range p.length).any fun k =>
    decide (rfind p '/' + 1 ≤ (k : Int)) &&
    decide ((k : Int) < rfind p '.') &&
    decide (p.get? k ≠ some '.')

/-- `os.path.splitext(p)[1]` as a character list (POSIX semantics). -/
def splitextExt (p : List Char) : List Char :=
  if rfind p '/' < rfind p '.' ∧ windowNonDot p = true then
    p.drop (rfind p '.').toNat
  else []

/-- The fixed extension-to-MIME table of `get_mime_type`. -/
def mime_types : List (String × String) :=
  [ (".png", "image/png")
  , (".jpg", "image/jpeg")
  , (".jpeg", "image/jpeg")
  , (".gif", "image/gif")
  , (".webp", "image/webp")
  , (".bmp", "image/bmp")
  , (".tiff", "image/tiff")
  , (".avif", "image/avif") ]

/-- `get_mime_type(filename)`: lowercase the `splitext` extension and look
it up in the table; `none` models Python's `None` (dict `.get` miss). -/
def get_mime_type (filename : String) : Option String :=
  List.lookup (String.mk ((splitextExt filename.data).map Char.toLower)) mime_types

/-- Modelled from the spec's words, for comparison with `get_mime_type`:
"Extension extraction takes the substring from the last `.` in the filename
to its end, case-insensitively; a filename with no `.` ... yields
unrecognized."  The extension is the suffix starting at the last dot,
lowercased, with no basename / leading-dot provisos. -/
def lastDotExt (f : String) : Option String :=
  if 0 ≤ rfind f.data '.' then
    some (String.mk ((f.data.drop (rfind f.data '.').toNat).map Char.toLower))
  else none

/-- Modelled from the spec's words: resolve the last-dot extension through
the fixed table; `none` is the "unrecognized" outcome. -/
def resolve_mime_type_spec (f : String) : Option String :=
  (lastDotExt f).bind fun e => List.lookup e mime_types

/-! ### Data model: configuration, database, requests, responses -/

/-- The environment-derived configuration (app.py lines 22-29).
`os.getenv` yields `None` for an unset variable, hence `Option`. -/
structure Config where
  BASE_URL : Option String
  ALLOWED_ORIGIN : Option String
  ACCESS_SECRET : Option String

/-- One row of the `images` table. -/
structure ImageRec where
  id : Nat
  image_name : String
  image_data : List Nat
  mime_type : String
deriving DecidableEq

/-- The `images` table plus the sequence backing its auto-increment key. -/
structure DB where
  rows : List ImageRec
  nextId : Nat
deriving DecidableEq

/-- `INSERT INTO images ... RETURNING id` followed by `commit`:
appends one row keyed by the next sequence value. -/
def insertImage (db : DB) (name : String) (data : List Nat) (mime : String) :
    Nat × DB :=
  (db.nextId, ⟨db.rows ++ [⟨db.nextId, name, data, mime⟩], db.nextId + 1⟩)

/-- `SELECT image_data, mime_type FROM images WHERE id = %s`: the path
parameter is text, matched against the decimal rendering of the integer
key. -/
def selectImage (db : DB) (image_id : String) : Option (List Nat × String) :=
  (db.rows.find? fun r => decide (pyNatStr r.id = image_id)).map
    fun r => (r.image_data, r.mime_type)

/-- One uploaded file of a multipart request: its client-supplied filename
and the bytes returned by `file.read()`. -/
structure UploadFile where
  filename : String
  content : List Nat
deriving DecidableEq

/-- An inbound HTTP request, at the granularity the handlers consume:
method, path, the two policy-relevant headers, the content type, and the
multipart files mapping (`request.files`). -/
structure Request where
  method : String
  path : String
  origin : Option String
  authorization : Option String
  content_type : Option String
  files : List (String × UploadFile)

/-- A JSON scalar as produced by `jsonify` in this app. -/
inductive JVal where
  | s (v : String)
  | n (v : Nat)
deriving DecidableEq

/-- A response body: a JSON object, a raw binary stream (`send_file`), or
plain text. -/
inductive Body where
  | json (fields : List (String × JVal))
  | raw (bytes : List Nat)
  | text (t : String)
deriving DecidableEq

/-- An outbound HTTP response. -/
structure Response where
  status : Nat
  body : Body
  contentType : Option String
deriving DecidableEq

/-- `jsonify({"error": msg}), code`. -/
def errResp (code : Nat) (msg : String) : Response :=
  ⟨code, .json [("error", .s msg)], some "application/json"⟩

/-- The 201 success payload of `upload_image`: message, id, and
`f"{BASE_URL}/{image_id}"`. -/
def uploadOkResp (cfg : Config) (idn : Nat) : Response :=
  ⟨201,
   .json [ ("message", .s "Image uploaded successfully")
         , ("id", .n idn)
         , ("url", .s (pyStr cfg.BASE_URL ++ "/" ++ pyNatStr idn)) ],
   some "application/json"⟩

/-- The greeting returned by the `/` route. -/
def homeResp : Response :=
  ⟨200, .text "Hello, World!", some "text/html"⟩

/-- Field lookup in a JSON response body. -/
def jsonField (r : Response) (k : String) : Option JVal :=
  match r.body with
  | .json fs => List.lookup k fs
  | _ => none

/-! ### Connection pool and fault model -/

/-- The pool created by `SimpleConnectionPool(minconn=1, maxconn=10, ...)`. -/
structure Pool where
  minconn : Nat
  maxconn : Nat
deriving DecidableEq

/-- Oracle for the behaviour of the database layer during one request:
everything succeeds, `getconn` raises, or the cursor/execute/commit work
raises after a connection was acquired. -/
inductive DbFault where
  | ok
  | connFail (msg : String)
  | queryFail (msg : String)
deriving DecidableEq

/-- Pool events recorded by a handler: one `acquire` per successful
`get_db_connection`, one `release` per `release_db_connection`. -/
inductive ConnEvent where
  | acquire
  | release
deriving DecidableEq

/-- The message of the `AttributeError` raised by `db_pool.getconn()` when
`db_pool` is still `None`. -/
def noneAttrMsg : String :=
  "AttributeError: NoneType object has no attribute getconn"

/-- `get_db_connection()`: raises when the pool is absent (`db_pool` is
`None`) or when the pool itself fails; the helper logs and re-raises, so
the caller sees the exception. -/
def getConn : Option Pool → DbFault → Except String Unit
  | none, _ => .error noneAttrMsg
  | some _, .connFail m => .error m
  | some _, _ => .ok ()

/-! ### Request policy and handlers -/

/-- The exact token the `Authorization` header is compared against:
`f"Bearer {ACCESS_SECRET}"` (note: `None` interpolates as `"None"`). -/
def bearerExpected (cfg : Config) : String :=
  "Bearer " ++ pyStr cfg.ACCESS_SECRET

/-- `pre_request_processing` (app.py lines 81-102), restricted to its
behavioural part: for POST requests, first the `Origin` header must equal
`ALLOWED_ORIGIN` (both possibly absent), then the `Authorization` header
must equal the expected bearer token; a `some` result short-circuits
routing.  The multipart/form-data content-type check only logs a warning
and rejects nothing. -/
def pre_request_processing (cfg : Config) (req : Request) : Option Response :=
  if req.method = "POST" then
    if req.origin ≠ cfg.ALLOWED_ORIGIN then
      some (errResp 403 "Unauthorized: Invalid origin")
    else if req.authorization ≠ some (bearerExpected cfg) then
      some (errResp 401 "Unauthorized: Invalid access token")
    else none
  else none

/-- `upload_image` (app.py lines 139-191): validate the multipart input,
then insert inside try/except/finally.  Returns the response, the database
after the request, and the pool-event trace. -/
def upload_image (cfg : Config) (pool : Option Pool) (fault : DbFault)
    (req : Request) (db : DB) : Response × DB × List ConnEvent :=
  match List.lookup "file" req.files with
  | none => (errResp 400 "No file part in the request", db, [])
  | some file =>
    if file.filename = "" then (errResp 400 "No file selected", db, [])
    else
      match get_mime_type file.filename with
      | none => (errResp 400 "Unsupported file type", db, [])
      | some mime =>
        match getConn pool fault with
        | .error e => (errResp 500 e, db, [])
        | .ok _ =>
          match fault with
          | .queryFail m => (errResp 500 m, db, [.acquire, .release])
          | _ =>
            let r := insertImage db file.filename file.content mime
            (uploadOkResp cfg r.1, r.2, [.acquire, .release])

/-- `get_image` (app.py lines 195-220): acquire a connection, select by id,
404 when absent, otherwise stream the bytes with the stored MIME type;
release in `finally`. -/
def get_image (pool : Option Pool) (fault : DbFault) (image_id : String)
    (db : DB) : Response × DB × List ConnEvent :=
  match getConn pool fault with
  | .error e => (errResp 500 e, db, [])
  | .ok _ =>
    match fault with
    | .queryFail m => (errResp 500 m, db, [.acquire, .release])
    | _ =>
      match selectImage db image_id with
      | none => (errResp 404 "Image not found", db, [.acquire, .release])
      | some (data, mime) => (⟨200, .raw data, some mime⟩, db, [.acquire, .release])

/-- The `/<string:image_id>` route converter: matches `'/'` followed by a
non-empty segment containing no further `'/'`. -/
def imageIdOf (path : String) : Option String :=
  match path.data with
  | c :: rest =>
    if c = '/' ∧ rest ≠ [] ∧ '/' ∉ rest then some (String.mk rest) else none
  | [] => none

/-- Full request processing: the `before_request` hook short-circuits if it
returns a response; otherwise the request is routed (`POST /upload`,
`GET /`, `GET /<string:image_id>`; anything else is a routing error). -/
def dispatch (cfg : Config) (pool : Option Pool) (fault : DbFault)
    (req : Request) (db : DB) : Response × DB × List ConnEvent :=
  match pre_request_processing cfg req with
  | some r => (r, db, [])
  | none =>
    if req.method = "POST" ∧ req.path = "/upload" then
      upload_image cfg pool fault req db
    else if req.method = "GET" ∧ req.path = "/" then (homeResp, db, [])
    else
      match imageIdOf req.path with
      | some i =>
        if req.method = "GET" then get_image pool fault i db
        else (⟨405, .text "Method Not Allowed", none⟩, db, [])
      | none => (⟨404, .text "Not Found", none⟩, db, [])

/-! ### Startup (`setup_db_connection_pool`, app.py lines 35-52) -/

/-- Outcome of the `SimpleConnectionPool(...)` constructor call. -/
inductive PoolInitResult where
  | ok
  | fail (msg : String)

/-- The body of `setup_db_connection_pool` as written: on success the
global `db_pool` is set and a success line is logged; on failure the
exception is caught, an error line is logged, and the function returns
normally with `db_pool` still `None` — it neither re-raises nor exits.
Returns the resulting pool and the log lines emitted.  (The decorator
meant to register this body as a startup hook is itself broken; see
`processStart`.) -/
def setup_db_connection_pool (outcome : PoolInitResult) :
    Option Pool × List String :=
  match outcome with
  | .ok => (some ⟨1, 10⟩, ["Database connection pool created successfully."])
  | .fail m => (none, ["Error creating database connection pool: " ++ m])

/-- What starting the process does: either module import raises and
nothing is ever served, or `app.run` is reached with some pool state. -/
inductive StartupOutcome where
  | importError (msg : String)
  | serving (pool : Option Pool)
deriving DecidableEq

/-- The message of the `AttributeError` raised at app.py line 35: Flask
application objects have no `on_event` method (that is FastAPI's
lifecycle API). -/
def onEventAttrMsg : String :=
  "AttributeError: Flask object has no attribute on_event"

/-- Starting the process: importing the module evaluates
`@app.on_event("startup")` (line 35) before `app.run` (line 230) can be
reached.  The attribute lookup raises `AttributeError`, so the startup
hook is never registered, `setup_db_connection_pool` never runs, nothing
is logged, and the process serves no requests — for every outcome pool
creation would have had. -/
def processStart (outcome : PoolInitResult) : StartupOutcome :=
  match outcome with
  | .ok => .importError onEventAttrMsg
  | .fail _ => .importError onEventAttrMsg

/-! ### Concrete instances used by witnesses -/

/-- A concrete configuration with all three settings present. -/
def cfg0 : Config :=
  ⟨some "https://img.example.com", some "https://app.example.com", some "s3cret"⟩

/-- The empty database whose next key is 1. -/
def dbEmpty : DB := ⟨[], 1⟩

/-- A concrete pool. -/
def pool0 : Pool := ⟨1, 10⟩

/-- The `POST /upload` request of the round-trip property: origin and
bearer token matching `cfg`, one file field named `file` with filename
`photo.png` and content `B`. -/
def uploadReq (cfg : Config) (B : List Nat) : Request :=
  { method := "POST", path := "/upload", origin := cfg.ALLOWED_ORIGIN
  , authorization := some (bearerExpected cfg)
  , content_type := some "multipart/form-data"
  , files := [("file", ⟨"photo.png", B⟩)] }

/-- A `GET /<s>` request with no Origin or Authorization header. -/
def getReqFor (s : String) : Request :=
  { method := "GET", path := "/" ++ s, origin := none, authorization := none
  , content_type := none, files := [] }

/-- The `GET /` liveness request. -/
def homeReq : Request :=
  { method := "GET", path := "/", origin := none, authorization := none
  , content_type := none, files := [] }

/-- The configuration of a process started with no environment variables
set. -/
def cfgNone : Config := ⟨none, none, none⟩

/-- A POST carrying neither an `Origin` nor an `Authorization` header. -/
def postNoHdr : Request :=
  { method := "POST", path := "/upload", origin := none, authorization := none
  , content_type := none, files := [] }

/-- A POST with a wrong origin but a bearer token valid for `cfg0`. -/
def postBadOrigin : Request :=
  { method := "POST", path := "/upload", origin := some "https://evil.example.com"
  , authorization := some "Bearer s3cret"
  , content_type := some "multipart/form-data", files := [] }

/-! ### Helper lemmas: decimal rendering -/

theorem digitChar_inj : ∀ d < 10, ∀ e < 10, digitChar d = digitChar e → d = e := by
  decide

theorem digitChar_ne_slash : ∀ d < 10, digitChar d ≠ '/' := by
  decide

theorem rfind_ge (p : List Char) (c : Char) : -1 ≤ rfind p c := by
  induction p with
  | nil => simp [rfind]
  | cons x xs ih =>
    simp only [rfind]
    split
    · omega
    · split <;> omega

theorem natDigits_ne_nil (n : Nat) : natDigits n ≠ [] := by
  rw [natDigits]
  split <;> simp

theorem mem_natDigits (n : Nat) : ∀ c ∈ natDigits n, ∃ d, d < 10 ∧ c = digitChar d := by
  induction n using Nat.strong_induction_on with
  | _ n ih =>
    intro c hc
    rw [natDigits] at hc
    split at hc
    · next h =>
      rw [List.mem_singleton] at hc
      exact ⟨n, h, hc⟩
    · next h =>
      rw [List.mem_append, List.mem_singleton] at hc
      rcases hc with hc | hc
      · exact ih (n / 10) (Nat.div_lt_self (by omega) (by omega)) c hc
      · exact ⟨n % 10, Nat.mod_lt _ (by omega), hc⟩

theorem slash_not_mem_natDigits (n : Nat) : '/' ∉ natDigits n := by
  intro h
  obtain ⟨d, hd, he⟩ := mem_natDigits n '/' h
  exact digitChar_ne_slash d hd he.symm

theorem natDigits_eq (n : Nat) :
    natDigits n =
      if n < 10 then [digitChar n]
      else natDigits (n / 10) ++ [digitChar (n % 10)] := by
  rw [natDigits]

theorem natDigits_inj : ∀ n m : Nat, natDigits n = natDigits m → n = m := by
  intro n
  induction n using Nat.strong_induction_on with
  | _ n ih =>
    intro m h
    rw [natDigits_eq n, natDigits_eq m] at h
    rcases Nat.lt_or_ge n 10 with hn | hn
    · rcases Nat.lt_or_ge m 10 with hm | hm
      · rw [if_pos hn, if_pos hm, List.cons.injEq] at h
        exact digitChar_inj n hn m hm h.1
      · rw [if_pos hn, if_neg (by omega)] at h
        exfalso
        have hlen : ([digitChar n]).length =
            (natDigits (m / 10) ++ [digitChar (m % 10)]).length := by rw [h]
        simp only [List.length_append, List.length_cons, List.length_nil] at hlen
        have hp : 0 < (natDigits (m / 10)).length :=
          List.length_pos.mpr (natDigits_ne_nil _)
        omega
    · rcases Nat.lt_or_ge m 10 with hm | hm
      · rw [if_neg (by omega), if_pos hm] at h
        exfalso
        have hlen : (natDigits (n / 10) ++ [digitChar (n % 10)]).length =
            ([digitChar m]).length := by rw [h]
        simp only [List.length_append, List.length_cons, List.length_nil] at hlen
        have hp : 0 < (natDigits (n / 10)).length :=
          List.length_pos.mpr (natDigits_ne_nil _)
        omega
      · rw [if_neg (by omega), if_neg (by omega)] at h
        have hrev : digitChar (n % 10) :: (natDigits (n / 10)).reverse =
            digitChar (m % 10) :: (natDigits (m / 10)).reverse := by
          have := congrArg List.reverse h
          simpa [List.reverse_append] using this
        rw [List.cons.injEq] at hrev
        have hmod : n % 10 = m % 10 :=
          digitChar_inj _ (Nat.mod_lt _ (by omega)) _ (Nat.mod_lt _ (by omega)) hrev.1
        have hdiv : n / 10 = m / 10 := by
          apply ih (n / 10) (Nat.div_lt_self (by omega) (by omega))
          have := congrArg List.reverse hrev.2
          simpa using this
        omega

theorem pyNatStr_data (n : Nat) : (pyNatStr n).data = natDigits n := rfl

theorem pyNatStr_inj {n m : Nat} (h : pyNatStr n = pyNatStr m) : n = m := by
  apply natDigits_inj
  have := String.ext_iff.mp h
  simpa [pyNatStr_data] using this

theorem pyNatStr_ne_empty (n : Nat) : pyNatStr n ≠ "" := by
  intro h
  have : (pyNatStr n).data = ("" : String).data := by rw [h]
  rw [pyNatStr_data] at this
  exact natDigits_ne_nil n (by simpa using this)

/-- Looking up the empty extension in the table misses. -/
theorem lookup_empty_ext :
    List.lookup (String.mk (List.map Char.toLower [])) mime_types = none := by
  decide

/-- C2 (amended): `get_mime_type` follows the claim's "substring from the
last `.`, case-insensitively" rule only when some non-dot character stands
between the last `/` (or the start) and the last `.`; a filename with no
`.` yields `none`, a filename whose last-dot extension is unlisted yields
`none`, and whenever the basename consists only of dots up to the last `.`
(e.g. `".png"`) the result is `none` even for a listed extension. -/
theorem get_mime_type_lastDot (f : String) :
    (rfind f.data '.' < 0 → get_mime_type f = none)
  ∧ ((rfind f.data '/' < rfind f.data '.' ∧ windowNonDot f.data = true) →
      get_mime_type f = resolve_mime_type_spec f)
  ∧ (resolve_mime_type_spec f = none → get_mime_type f = none) := by
  have h2 : (rfind f.data '/' < rfind f.data '.' ∧ windowNonDot f.data = true) →
      get_mime_type f = resolve_mime_type_spec f := by
    intro hc
    have hd0 : 0 ≤ rfind f.data '.' := by
      have := rfind_ge f.data '/'
      omega
    unfold get_mime_type resolve_mime_type_spec lastDotExt splitextExt
    rw [if_pos hc, if_pos hd0]
    rfl
  refine ⟨?_, h2, ?_⟩
  · intro hd
    have hng : ¬(rfind f.data '/' < rfind f.data '.' ∧ windowNonDot f.data = true) := by
      have := rfind_ge f.data '/'
      rintro ⟨hlt, _⟩
      omega
    unfold get_mime_type splitextExt
    rw [if_neg hng]
    exact lookup_empty_ext
  · intro hr
    by_cases hc : rfind f.data '/' < rfind f.data '.' ∧ windowNonDot f.data = true
    · rw [h2 hc]
      exact hr
    · unfold get_mime_type splitextExt
      rw [if_neg hc]
      exact lookup_empty_ext

/-- C2 counterexample: the filename `".png"` has `".png"` as the substring
from its last `.`, a listed extension, so the claim predicts `image/png`;
but `os.path.splitext` treats a leading dot as part of the basename, so
`get_mime_type` returns the unrecognized value `none`. -/
theorem get_mime_type_lastDot_cex :
    get_mime_type ".png" = none ∧ resolve_mime_type_spec ".png" = some "image/png" := by
  decide

/-- C2 witness: on `"photo.png"` the hypotheses of the amended theorem hold
and the code agrees with the last-dot rule. -/
theorem get_mime_type_lastDot_witness :
    get_mime_type "photo.png" = resolve_mime_type_spec "photo.png" :=
  (get_mime_type_lastDot "photo.png").2.1 (by decide)

/-- C4: upload validation runs in a fixed order, each failure an immediate
400 JSON error with no database write and no pool traffic: missing `file`
field, then empty filename, then unresolvable extension. -/
theorem upload_validation_order (cfg : Config) (pool : Option Pool)
    (fault : DbFault) (req : Request) (db : DB) :
    (List.lookup "file" req.files = none →
      upload_image cfg pool fault req db =
        (errResp 400 "No file part in the request", db, []))
  ∧ (∀ file, List.lookup "file" req.files = some file → file.filename = "" →
      upload_image cfg pool fault req db =
        (errResp 400 "No file selected", db, []))
  ∧ (∀ file, List.lookup "file" req.files = some file → file.filename ≠ "" →
      get_mime_type file.filename = none →
      upload_image cfg pool fault req db =
        (errResp 400 "Unsupported file type", db, [])) := by
  refine ⟨?_, ?_, ?_⟩
  · intro h
    simp [upload_image, h]
  · intro file hf he
    simp [upload_image, hf, he]
  · intro file hf hne hm
    simp [upload_image, hf, hne, hm]

/-- C4 witness: a request with no `file` field is rejected with the first
message and leaves the empty database empty. -/
theorem upload_validation_order_witness :
    upload_image cfg0 none .ok homeReq dbEmpty =
      (errResp 400 "No file part in the request", dbEmpty, []) :=
  (upload_validation_order cfg0 none .ok homeReq dbEmpty).1 rfl

/-- C5: once validation passes, a failure of connection acquisition or of
the insert/commit yields a 500 whose JSON `error` field is the underlying
message and leaves the store untouched, while the success path persists
exactly one new record. -/
theorem upload_atomicity (cfg : Config) (pool : Option Pool) (fault : DbFault)
    (req : Request) (db : DB) (file : UploadFile) (mime : String)
    (hf : List.lookup "file" req.files = some file)
    (hn : file.filename ≠ "")
    (hm : get_mime_type file.filename = some mime) :
    (∀ e, getConn pool fault = .error e →
      upload_image cfg pool fault req db = (errResp 500 e, db, []))
  ∧ (∀ p m, pool = some p → fault = .queryFail m →
      upload_image cfg pool fault req db =
        (errResp 500 m, db, [.acquire, .release]))
  ∧ (∀ p, pool = some p → fault = .ok →
      upload_image cfg pool fault req db =
        (uploadOkResp cfg db.nextId,
         ⟨db.rows ++ [⟨db.nextId, file.filename, file.content, mime⟩], db.nextId + 1⟩,
         [.acquire, .release])) := by
  refine ⟨?_, ?_, ?_⟩
  · intro e he
    simp [upload_image, hf, hn, hm, he]
  · intro p m hp hq
    subst hp
    subst hq
    simp [upload_image, hf, hn, hm, getConn]
  · intro p hp ho
    subst hp
    subst ho
    simp [upload_image, hf, hn, hm, getConn, insertImage]

/-- C5 witness: a concrete passing upload against the empty database
persists exactly the one new record with id 1. -/
theorem upload_atomicity_witness :
    upload_image cfg0 (some pool0) .ok (uploadReq cfg0 [1, 2, 3]) dbEmpty =
      (uploadOkResp cfg0 1,
       ⟨[⟨1, "photo.png", [1, 2, 3], "image/png"⟩], 2⟩,
       [.acquire, .release]) := by
  have h := (upload_atomicity cfg0 (some pool0) .ok (uploadReq cfg0 [1, 2, 3])
      dbEmpty ⟨"photo.png", [1, 2, 3]⟩ "image/png" rfl (by decide)
      (by decide)).2.2 pool0 rfl rfl
  simpa [dbEmpty] using h

/-- C6: a GET whose identifier matches no stored record yields the 404
JSON error (when a connection is available and the query succeeds), and
retrieval never changes the set of stored records, found or not. -/
theorem get_image_not_found (pool : Option Pool) (fault : DbFault)
    (image_id : String) (db : DB) :
    (∀ p, pool = some p → fault = .ok → selectImage db image_id = none →
      get_image pool fault image_id db =
        (errResp 404 "Image not found", db, [.acquire, .release]))
  ∧ (get_image pool fault image_id db).2.1 = db := by
  constructor
  · intro p hp ho hs
    subst hp
    subst ho
    simp [get_image, getConn, hs]
  · cases hg : getConn pool fault with
    | error e => simp [get_image, hg]
    | ok u =>
      cases fault with
      | queryFail m => simp [get_image, hg]
      | ok =>
        rcases hs : selectImage db image_id with _ | ⟨a, b⟩ <;>
          simp [get_image, hg, hs]
      | connFail m =>
        rcases hs : selectImage db image_id with _ | ⟨a, b⟩ <;>
          simp [get_image, hg, hs]

/-- C6 witness: id 7 against the empty database gives 404 and leaves the
database unchanged. -/
theorem get_image_not_found_witness :
    get_image (some pool0) .ok "7" dbEmpty =
      (errResp 404 "Image not found", dbEmpty, [.acquire, .release]) :=
  (get_image_not_found (some pool0) .ok "7" dbEmpty).1 pool0 rfl rfl
    (by simp [selectImage, dbEmpty])

/-- C8: in both handlers the pool-event trace of a request is either empty
or exactly one `acquire` followed by one `release`, and when connection
acquisition itself fails no release is attempted. -/
theorem conn_release_pairing (cfg : Config) (pool : Option Pool)
    (fault : DbFault) (req : Request) (image_id : String) (db : DB) :
    ((upload_image cfg pool fault req db).2.2 = [] ∨
      (upload_image cfg pool fault req db).2.2 = [.acquire, .release])
  ∧ ((get_image pool fault image_id db).2.2 = [] ∨
      (get_image pool fault image_id db).2.2 = [.acquire, .release])
  ∧ (∀ e, getConn pool fault = .error e →
      (upload_image cfg pool fault req db).2.2 = [] ∧
      (get_image pool fault image_id db).2.2 = []) := by
  have hup : ∀ e, getConn pool fault = .error e →
      (upload_image cfg pool fault req db).2.2 = [] := by
    intro e he
    cases hl : List.lookup "file" req.files with
    | none => simp [upload_image, hl]
    | some file =>
      by_cases hemp : file.filename = ""
      · simp [upload_image, hl, hemp]
      · cases hm : get_mime_type file.filename with
        | none => simp [upload_image, hl, hemp, hm]
        | some mime => simp [upload_image, hl, hemp, hm, he]
  have hget : ∀ e, getConn pool fault = .error e →
      (get_image pool fault image_id db).2.2 = [] := by
    intro e he
    simp [get_image, he]
  refine ⟨?_, ?_, fun e he => ⟨hup e he, hget e he⟩⟩
  · cases hl : List.lookup "file" req.files with
    | none => left; simp [upload_image, hl]
    | some file =>
      by_cases hemp : file.filename = ""
      · left; simp [upload_image, hl, hemp]
      · cases hm : get_mime_type file.filename with
        | none => left; simp [upload_image, hl, hemp, hm]
        | some mime =>
          cases hg : getConn pool fault with
          | error e => left; simp [upload_image, hl, hemp, hm, hg]
          | ok u =>
            right
            cases fault <;> simp [upload_image, hl, hemp, hm, hg]
  · cases hg : getConn pool fault with
    | error e => left; simp [get_image, hg]
    | ok u =>
      right
      cases fault with
      | queryFail m => simp [get_image, hg]
      | ok =>
        rcases hs : selectImage db image_id with _ | ⟨a, b⟩ <;>
          simp [get_image, hg, hs]
      | connFail m =>
        rcases hs : selectImage db image_id with _ | ⟨a, b⟩ <;>
          simp [get_image, hg, hs]

/-- C8 witness: with no pool, acquisition fails and neither handler emits
any pool event. -/
theorem conn_release_pairing_witness :
    (upload_image cfg0 none .ok homeReq dbEmpty).2.2 = [] ∧
    (get_image none .ok "7" dbEmpty).2.2 = [] :=
  (conn_release_pairing cfg0 none .ok homeReq "7" dbEmpty).2.2 noneAttrMsg rfl

/-- C10: the origin check is plain equality between the raw `Origin`
header and `ALLOWED_ORIGIN`; when `ALLOWED_ORIGIN` is unset, a POST with
no `Origin` header passes the origin check (absent equals absent) and its
outcome is exactly the secret check's outcome, never the 403. -/
theorem origin_absent_passes (cfg : Config) (req : Request)
    (hA : cfg.ALLOWED_ORIGIN = none) (hm : req.method = "POST")
    (ho : req.origin = none) :
    pre_request_processing cfg req ≠
      some (errResp 403 "Unauthorized: Invalid origin")
  ∧ pre_request_processing cfg req =
      (if req.authorization = some (bearerExpected cfg) then none
       else some (errResp 401 "Unauthorized: Invalid access token")) := by
  have heq : pre_request_processing cfg req =
      (if req.authorization = some (bearerExpected cfg) then none
       else some (errResp 401 "Unauthorized: Invalid access token")) := by
    by_cases h : req.authorization = some (bearerExpected cfg) <;>
      simp [pre_request_processing, hm, ho, hA, h]
  refine ⟨?_, heq⟩
  rw [heq]
  by_cases h : req.authorization = some (bearerExpected cfg)
  · simp [h]
  · rw [if_neg h]
    intro hcontra
    rw [Option.some.injEq] at hcontra
    exact absurd hcontra (by decide)

/-- C10 witness: with every configuration value unset and a header-less
POST, the result is the 401 of the secret check, not the origin 403. -/
theorem origin_absent_passes_witness :
    pre_request_processing cfgNone postNoHdr =
      some (errResp 401 "Unauthorized: Invalid access token") := by
  have h := (origin_absent_passes cfgNone postNoHdr rfl rfl rfl).2
  rw [h, if_neg (by decide)]

/-- C3: for POST requests the origin check precedes the secret check: a
mismatched origin gives the 403 regardless of the Authorization header and
leaves the store unchanged; with a matching origin a mismatched token gives
the 401 and leaves the store unchanged; passing both reaches
`upload_image`. -/
theorem post_policy_order (cfg : Config) (pool : Option Pool)
    (fault : DbFault) (req : Request) (db : DB) (hm : req.method = "POST") :
    (req.origin ≠ cfg.ALLOWED_ORIGIN →
      dispatch cfg pool fault req db =
        (errResp 403 "Unauthorized: Invalid origin", db, []))
  ∧ (req.origin = cfg.ALLOWED_ORIGIN →
      req.authorization ≠ some (bearerExpected cfg) →
      dispatch cfg pool fault req db =
        (errResp 401 "Unauthorized: Invalid access token", db, []))
  ∧ (req.origin = cfg.ALLOWED_ORIGIN →
      req.authorization = some (bearerExpected cfg) → req.path = "/upload" →
      dispatch cfg pool fault req db = upload_image cfg pool fault req db) := by
  refine ⟨?_, ?_, ?_⟩
  · intro ho
    simp [dispatch, pre_request_processing, hm, ho]
  · intro ho ha
    simp [dispatch, pre_request_processing, hm, ho, ha]
  · intro ho ha hp
    simp [dispatch, pre_request_processing, hm, ho, ha, hp]

/-- C3 witness: a POST with the wrong origin but a valid bearer token is
rejected with the 403 and creates no record. -/
theorem post_policy_order_witness :
    dispatch cfg0 (some pool0) .ok postBadOrigin dbEmpty =
      (errResp 403 "Unauthorized: Invalid origin", dbEmpty, []) :=
  (post_policy_order cfg0 (some pool0) .ok postBadOrigin dbEmpty rfl).1
    (by decide)

/-- C9: the response to a GET request is identical for any two values
(including absence) of the `Origin` and `Authorization` headers — the
origin/secret policy applies only to POSTs. -/
theorem get_ignores_auth_headers (cfg : Config) (pool : Option Pool)
    (fault : DbFault) (db : DB) (pth : String) (ct : Option String)
    (fs : List (String × UploadFile)) (o1 a1 o2 a2 : Option String) :
    dispatch cfg pool fault ⟨"GET", pth, o1, a1, ct, fs⟩ db =
    dispatch cfg pool fault ⟨"GET", pth, o2, a2, ct, fs⟩ db := by
  simp [dispatch, pre_request_processing]

/-! ### Helper lemmas for routing and retrieval of a fresh record -/

theorem slash_data : ("/" : String).data = ['/'] := rfl

theorem append_slash_ne_slash (s : String) (hs : s.data ≠ []) :
    ("/" ++ s) ≠ "/" := by
  intro h
  have hd := String.ext_iff.mp h
  rw [String.data_append, slash_data] at hd
  simp at hd
  exact hs hd

theorem imageIdOf_slash_append (s : String) (hne : s.data ≠ [])
    (hns : '/' ∉ s.data) : imageIdOf ("/" ++ s) = some s := by
  have hd : ("/" ++ s).data = '/' :: s.data := by
    rw [String.data_append, slash_data]
    rfl
  unfold imageIdOf
  rw [hd]
  show (if ('/' : Char) = '/' ∧ s.data ≠ [] ∧ '/' ∉ s.data then
      some (String.mk s.data) else none) = some s
  rw [if_pos ⟨rfl, hne, hns⟩]

theorem dispatch_get_is_get_image (cfg : Config) (pool : Option Pool)
    (fault : DbFault) (s : String) (db : DB) (hne : s.data ≠ [])
    (hns : '/' ∉ s.data) :
    dispatch cfg pool fault (getReqFor s) db = get_image pool fault s db := by
  have hslash : (("/" ++ s : String) = "/") = False :=
    eq_false (append_slash_ne_slash s hne)
  simp [dispatch, getReqFor, pre_request_processing, hslash,
    imageIdOf_slash_append s hne hns]

theorem selectImage_fresh_append (db : DB) (B : List Nat) (name mime : String)
    (hfresh : ∀ r ∈ db.rows, r.id ≠ db.nextId) :
    selectImage ⟨db.rows ++ [⟨db.nextId, name, B, mime⟩], db.nextId + 1⟩
      (pyNatStr db.nextId) = some (B, mime) := by
  unfold selectImage
  have h1 : db.rows.find? (fun r => decide (pyNatStr r.id = pyNatStr db.nextId)) =
      none := by
    rw [List.find?_eq_none]
    intro r hr
    simp only [decide_eq_true_eq]
    intro hEq
    exact hfresh r hr (pyNatStr_inj hEq)
  simp [List.find?_append, h1, List.find?]

/-- C1: a POST `/upload` that passes the origin/secret policy, carrying a
`file` field named `photo.png` with bytes `B`, returns 201 with a JSON
body whose `id` is the new record's key and whose `url` ends in that id;
a subsequent GET on that id returns 200 with body exactly `B` and
content type `image/png`, the MIME type stored at insert time.  The
freshness hypothesis states that the auto-increment key is not already in
use. -/
theorem upload_then_get_roundtrip (cfg : Config) (p : Pool) (db : DB)
    (B : List Nat) (hfresh : ∀ r ∈ db.rows, r.id ≠ db.nextId) :
    ∃ (idn : Nat) (urlv : String) (db' : DB),
      dispatch cfg (some p) .ok (uploadReq cfg B) db =
        (uploadOkResp cfg idn, db', [.acquire, .release])
    ∧ (uploadOkResp cfg idn).status = 201
    ∧ jsonField (uploadOkResp cfg idn) "id" = some (.n idn)
    ∧ jsonField (uploadOkResp cfg idn) "url" = some (.s urlv)
    ∧ (∃ basePart, urlv = basePart ++ pyNatStr idn)
    ∧ dispatch cfg (some p) .ok (getReqFor (pyNatStr idn)) db' =
        (⟨200, .raw B, some "image/png"⟩, db', [.acquire, .release]) := by
  refine ⟨db.nextId, pyStr cfg.BASE_URL ++ "/" ++ pyNatStr db.nextId,
    ⟨db.rows ++ [⟨db.nextId, "photo.png", B, "image/png"⟩], db.nextId + 1⟩,
    ?_, rfl, ?_, ?_, ⟨pyStr cfg.BASE_URL ++ "/", by rw [String.append_assoc]⟩, ?_⟩
  · have hmime : get_mime_type "photo.png" = some "image/png" := by decide
    simp [dispatch, pre_request_processing, uploadReq, upload_image, getConn,
      insertImage, hmime, uploadOkResp]
  · simp [jsonField, uploadOkResp, List.lookup]
  · simp [jsonField, uploadOkResp, List.lookup]
  · have hne : (pyNatStr db.nextId).data ≠ [] := by
      rw [pyNatStr_data]
      exact natDigits_ne_nil _
    have hns : '/' ∉ (pyNatStr db.nextId).data := by
      rw [pyNatStr_data]
      exact slash_not_mem_natDigits _
    rw [dispatch_get_is_get_image cfg (some p) .ok (pyNatStr db.nextId) _ hne hns]
    simp [get_image, getConn,
      selectImage_fresh_append db B "photo.png" "image/png" hfresh]

/-- C1 witness: the round trip at a concrete configuration, pool, byte
string and the empty database. -/
theorem upload_then_get_roundtrip_witness :
    ∃ (idn : Nat) (urlv : String) (db' : DB),
      dispatch cfg0 (some pool0) .ok (uploadReq cfg0 [137, 80, 78, 71]) dbEmpty =
        (uploadOkResp cfg0 idn, db', [.acquire, .release])
    ∧ (uploadOkResp cfg0 idn).status = 201
    ∧ jsonField (uploadOkResp cfg0 idn) "id" = some (.n idn)
    ∧ jsonField (uploadOkResp cfg0 idn) "url" = some (.s urlv)
    ∧ (∃ basePart, urlv = basePart ++ pyNatStr idn)
    ∧ dispatch cfg0 (some pool0) .ok (getReqFor (pyNatStr idn)) db' =
        (⟨200, .raw [137, 80, 78, 71], some "image/png"⟩, db', [.acquire, .release]) :=
  upload_then_get_roundtrip cfg0 pool0 dbEmpty [137, 80, 78, 71]
    (by simp [dbEmpty])

/-- C7: the startup code evaluated at a failing pool creation, against
the claim's required behaviour (log the cause, then exit or refuse to
start).  The hook body as written catches the exception, logs an error
line, and returns normally with no pool — it would continue serving, not
exit; and the module's actual startup wiring never reaches it: evaluating
the `@app.on_event` decorator raises at import, so the process serves no
requests and logs nothing, on the failing and the succeeding pool outcome
alike. -/
theorem startup_pool_failure_behavior (m : String) :
    (setup_db_connection_pool (.fail m)).1 = none
  ∧ (setup_db_connection_pool (.fail m)).2 =
      ["Error creating database connection pool: " ++ m]
  ∧ processStart (.fail m) = .importError onEventAttrMsg
  ∧ processStart .ok = .importError onEventAttrMsg :=
  ⟨rfl, rfl, rfl, rfl⟩
